import Mathlib

/-!
Shallow embedding of the time-sampled media feature-extraction and reporting
framework of the `applovin-market-intelligence` repository
(`data-analysis/lib/file_utils.py`, `data-analysis/lib/time_utils.py`,
`data-analysis/util/body_keypoints.py`, `data-analysis/util/face_keypoints.py`,
`data-analysis/util/text_boxes.py`, `data-analysis/util/sound_extraction.py`),
together with theorems settling the specification claims about it.

Modelling conventions:
* machine numbers are `Nat` / `Int` / `ℚ` (exact); Python `int(x)` is
  truncation toward zero (`pyInt`);
* fallible code returns `Except Unit`; an `Except.error ()` models a raised
  Python exception (e.g. `ZeroDivisionError`, or a detector call raising);
* the external detector models (pose, face-mesh, OCR) are out of scope: the
  per-frame detector output is an input of the embedded functions, one entry
  per decoded frame of the stream;
* filesystem side effects are recorded as an explicit event list.
-/

/-- Python `int()` applied to an exact rational: truncation toward zero.
`Int.tdiv` is T-division (rounds toward zero), and a rational is its
numerator divided by its (positive) denominator. -/
def pyInt (q : ℚ) : ℤ := q.num.tdiv q.den

/-- Value of a list of decimal digit characters, most significant first
(the usual decimal reading, used to re-parse numbers printed by `Nat.repr`).
The step takes the accumulated value times ten plus the digit's value,
obtained from its code point. -/
def decValue (ds : List Char) : Nat :=
  ds.foldl (fun acc c => acc * 10 + (c.toNat - 48)) 0

/-- Left-pad a string with zeros to width `w` (used by the fixed-point
renderer for the fractional part). -/
def padZeros (w : Nat) (s : String) : String :=
  String.mk (List.replicate (w - s.length) '0') ++ s

/-- Round the fraction `n / d` (with `d > 0`) to the nearest integer, ties
to even — the rounding used by Python `format(x, '.2f')` / `'.3f'` on
exactly representable values. -/
def roundHalfEvenInt (n : ℤ) (d : ℕ) : ℤ :=
  let f : ℤ := n.fdiv d
  let r2 : ℤ := 2 * (n - f * d)
  if r2 < d then f
  else if (d : ℤ) < r2 then f + 1
  else if f % 2 = 0 then f else f + 1

/-- Python fixed-point formatting `format(q, '.precf')`: round to `prec`
decimal places (half to even) and render with a sign, the integer part, a
dot, and exactly `prec` fractional digits. The scaling by `10 ^ prec` is
performed on the numerator so that every step is integer arithmetic. -/
def fmtFixed (prec : Nat) (q : ℚ) : String :=
  let m : ℤ := roundHalfEvenInt (q.num * ((10 ^ prec : ℕ) : ℤ)) q.den
  let sign : String := if m < 0 then "-" else ""
  let a : Nat := m.natAbs
  sign ++ Nat.repr (a / 10 ^ prec) ++ "." ++ padZeros prec (Nat.repr (a % 10 ^ prec))

namespace FileUtils

/-- Split a character list at every `/` (helper for the pathlib `name`
computation; kept at character level so the kernel can evaluate it). -/
def splitSlash : List Char → List (List Char)
  | [] => [[]]
  | c :: r =>
    match splitSlash r with
    | [] => [[]]
    | g :: gs => if c = '/' then [] :: g :: gs else (c :: g) :: gs

/-- Final path component, per `pathlib.PurePosixPath(path).name`: split on
`/`, drop empty components and the `.` components that pathlib normalizes
away, and take the last remaining component (or the empty string). -/
def pathName (p : String) : String :=
  let comps := (splitSlash p.data).filter (fun s => s ≠ [] ∧ s ≠ ['.'])
  String.mk (comps.getLast?.getD [])

/-- Final suffix of the path, per `pathlib`'s `suffix`: the part of the name
from its last dot; empty when the name has no dot, or its only dot is the
leading character, or the dot is the final character. -/
def pathSuffix (p : String) : String :=
  let name := (pathName p).data
  let after := name.reverse.takeWhile (fun c => c ≠ '.')
  if after.length = name.length then ""
  else if after.length = 0 then ""
  else if name.length - 1 - after.length = 0 then ""
  else String.mk ('.' :: after.reverse)

/-- Stem of the path, per `pathlib`'s `stem`: the final component without
its final suffix (glossary: "a file name with its final extension
removed"). -/
def pathStem (p : String) : String :=
  let name := (pathName p).data
  String.mk (name.take (name.length - (pathSuffix p).data.length))

/-- Python `str.lower()` on the ASCII extension strings handled here. -/
def strLower (s : String) : String := String.mk (s.data.map Char.toLower)

/-- Image extension set of `is_video_or_image` (file_utils.py line 7). -/
def image_extensions : List String :=
  [".png", ".jpg", ".jpeg", ".gif", ".bmp", ".webp", ".svg", ".tiff", ".ico"]

/-- Video extension set of `is_video_or_image` (file_utils.py line 8). -/
def video_extensions : List String :=
  [".mp4", ".avi", ".mov", ".mkv", ".flv", ".wmv", ".webm", ".m4v", ".mpeg", ".mpg"]

/-- Embeds `is_video_or_image` (file_utils.py lines 3-15): classify a path
from its lower-cased final suffix only; no filesystem access occurs. -/
def is_video_or_image (path : String) : String :=
  let extension := strLower (pathSuffix path)
  if extension ∈ image_extensions then "image"
  else if extension ∈ video_extensions then "video"
  else "unknown"

end FileUtils

namespace TimeUtils

/-- Embeds `format_duration` (time_utils.py lines 1-16). The input is an
exact rational (Python accepts ints and floats); `int(seconds)` truncates
toward zero; Python `//` and `%` are floored division (`Int.fdiv`,
`Int.fmod`). -/
def format_duration (seconds : ℚ) : String :=
  let s : ℤ := pyInt seconds
  if s < 60 then
    if s ≠ 1 then Int.repr s ++ " seconds" else "1 second"
  else
    let minutes : ℤ := s.fdiv 60
    let remaining_seconds : ℤ := s.fmod 60
    if remaining_seconds = 0 then
      if minutes ≠ 1 then Int.repr minutes ++ " minutes" else "1 minute"
    else
      let minute_text := if minutes = 1 then "1 minute" else Int.repr minutes ++ " minutes"
      let second_text :=
        if remaining_seconds = 1 then "1 second"
        else Int.repr remaining_seconds ++ " seconds"
      minute_text ++ " " ++ second_text

end TimeUtils

/-! ### Shared video traversal

The three video extractors (`body_keypoints.py`, `face_keypoints.py`,
`text_boxes.py`) contain the same `while True: ret, frame = cap.read()`
loop, differing only in how a sampled frame is rendered to report lines.
The loop is embedded once, parameterized by that renderer. -/

/-- A `cv2.VideoCapture` stream as the extraction code observes it:
whether it opened, the reported frame rate, and for each decodable frame
the result of running the (external) detector on it; `Except.error ()`
models the detector raising an exception on that frame. -/
structure VideoStream (α : Type) where
  opened : Bool
  fps : ℚ
  frames : List (Except Unit α)

/-- Accumulated observations of one run of the sampling `while` loop:
the `result_lines` list, the frame numbers passed to the detector, the
`Second` labels of the emitted per-second groups (in emission order), and
whether a detector call raised. -/
structure LoopAcc where
  lines : List String
  calls : List Nat
  seconds : List Nat
  err : Bool
  deriving DecidableEq

/-- Embeds the temporal-sampling `while` loop (body_keypoints.py lines
48-68 and its verbatim copies): read frames until the stream is exhausted;
when `frame_number % frame_interval == 0`, run the detector and append the
rendered per-second group, then advance `current_second`; always advance
`frame_number`. A detector error aborts the traversal, keeping the lines
and labels emitted so far. This function is only invoked with
`interval ≥ 1`; the caller handles `int(fps) == 0` (Python would raise
`ZeroDivisionError` at the modulo) before entering the loop. -/
def videoLoop (render : α → Nat → List String) (interval : Nat) :
    List (Except Unit α) → Nat → Nat → LoopAcc
  | [], _, _ => ⟨[], [], [], false⟩
  | f :: rest, frame_number, current_second =>
    if frame_number % interval = 0 then
      match f with
      | .error _ => ⟨[], [frame_number], [], true⟩
      | .ok a =>
        let acc := videoLoop render interval rest (frame_number + 1) (current_second + 1)
        ⟨render a current_second ++ acc.lines, frame_number :: acc.calls,
         current_second :: acc.seconds, acc.err⟩
    else
      videoLoop render interval rest (frame_number + 1) current_second

/-- Outcome of one video extraction call, with the resource events the
claims talk about: `acquired`/`closed` for the detector object,
`released` for the capture, plus the loop observations. -/
structure VideoExtract where
  result : Except Unit (Option String)
  acquired : Bool
  closed : Bool
  released : Bool
  lines : List String
  calls : List Nat
  seconds : List Nat

/-- Outcome of one image extraction call, with the detector resource
events. -/
structure ImageExtract where
  result : Except Unit (Option String)
  acquired : Bool
  closed : Bool

/-- Result of `cv2.imread` plus the detector output on the image:
`readable = false` models `imread` returning `None`; the detector result
is an input because the detector itself is an external model. -/
structure ImageInput (α : Type) where
  readable : Bool
  detections : Except Unit α

/-- Filesystem side effects performed by the save entry points. -/
inductive FsEvent
  | mkdir (dir : String)
  | write (file content : String)
  deriving DecidableEq

namespace BodyKeypoints

/-- One detected pose keypoint `(landmark_id, x, y, visibility)` as
returned by `BodyPoseDetector.get_keypoints` (external model): pixel
coordinates and a visibility score rendered to three decimals. -/
structure PoseKp where
  landmark_id : Nat
  x : Int
  y : Int
  visibility : ℚ
  deriving DecidableEq

/-- Report line for one keypoint in the video report
(body_keypoints.py line 62). -/
def poseLineVideo (kp : PoseKp) : String :=
  "    Landmark " ++ Nat.repr kp.landmark_id ++ ": (" ++ Int.repr kp.x ++ ", " ++
    Int.repr kp.y ++ ") | Visibility: " ++ fmtFixed 3 kp.visibility

/-- Report line for one keypoint in the image report
(body_keypoints.py line 25). -/
def poseLineImage (kp : PoseKp) : String :=
  "  Landmark " ++ Nat.repr kp.landmark_id ++ ": (" ++ Int.repr kp.x ++ ", " ++
    Int.repr kp.y ++ ") | Visibility: " ++ fmtFixed 3 kp.visibility

/-- Lines appended for one sampled frame (body_keypoints.py lines 58-64):
a labelled group when the detector found keypoints, otherwise the
labelled sentinel. -/
def poseFrameLines (keypoints_data : List PoseKp) (current_second : Nat) : List String :=
  if keypoints_data ≠ [] then
    ("Second " ++ Nat.repr current_second ++ ":") :: "  Body Pose:" ::
      keypoints_data.map poseLineVideo
  else
    ["Second " ++ Nat.repr current_second ++ ": No pose detected"]

/-- Embeds `extract_video_keypoints` (body_keypoints.py lines 30-76).
Control flow is the source's: unopened stream and `fps <= 0` return
`None` (the latter after `cap.release()`); `int(fps) == 0` with at least
one decoded frame models the `ZeroDivisionError` Python raises at
`frame_number % frame_interval`; otherwise the loop runs to exhaustion,
`cap.release()` and `detector.close()` run, and the joined report (or the
"No frames processed" sentinel) is returned. A detector error propagates
before either release call. -/
def extract_video_keypoints (cap : VideoStream (List PoseKp)) : VideoExtract :=
  if cap.opened = false then
    ⟨.ok none, false, false, false, [], [], []⟩
  else if cap.fps ≤ 0 then
    ⟨.ok none, false, false, true, [], [], []⟩
  else
    let frame_interval : Nat := (pyInt cap.fps).toNat
    if frame_interval = 0 then
      match cap.frames with
      | [] => ⟨.ok (some "No frames processed"), true, true, true, [], [], []⟩
      | _ :: _ => ⟨.error (), true, false, false, [], [], []⟩
    else
      let acc := videoLoop poseFrameLines frame_interval cap.frames 0 0
      if acc.err then
        ⟨.error (), true, false, false, acc.lines, acc.calls, acc.seconds⟩
      else
        ⟨.ok (some (if acc.lines = [] then "No frames processed"
                    else String.intercalate "\n" acc.lines)),
         true, true, true, acc.lines, acc.calls, acc.seconds⟩

/-- Embeds `extract_image_keypoints` (body_keypoints.py lines 8-27):
unreadable image returns `None`; `detector.close()` runs before the
emptiness test, so both the sentinel and the rendered report close the
detector; a detector error propagates without closing. -/
def extract_image_keypoints (img : ImageInput (List PoseKp)) : ImageExtract :=
  if img.readable = false then ⟨.ok none, false, false⟩
  else
    match img.detections with
    | .error _ => ⟨.error (), true, false⟩
    | .ok keypoints_data =>
      if keypoints_data = [] then ⟨.ok (some "No pose detected"), true, true⟩
      else
        ⟨.ok (some (String.intercalate "\n"
            ("Body Pose:" :: keypoints_data.map poseLineImage))), true, true⟩

/-- Embeds `save_keypoints` (body_keypoints.py lines 79-105). The default
output directory stands for `Path(__file__).parent.parent / "data" /
"results" / "body_keypoints"`. Returns the written file path (or `None`)
together with the filesystem events performed, in order. -/
def save_keypoints (path : String) (img : ImageInput (List PoseKp))
    (cap : VideoStream (List PoseKp)) (output_dir : Option String) :
    Except Unit (Option String) × List FsEvent :=
  let file_type := FileUtils.is_video_or_image path
  let r : Except Unit (Option String) :=
    if file_type = "image" then (extract_image_keypoints img).result
    else if file_type = "video" then (extract_video_keypoints cap).result
    else .ok none
  match r with
  | .error e => (.error e, [])
  | .ok none => (.ok none, [])
  | .ok (some keypoints_text) =>
    let dir := output_dir.getD "data/results/body_keypoints"
    let output_file := dir ++ "/" ++ FileUtils.pathStem path ++ ".txt"
    (.ok (some output_file), [.mkdir dir, .write output_file keypoints_text])

end BodyKeypoints

namespace FaceKeypoints

/-- One face-mesh landmark `(landmark_id, x, y)` as returned by
`FaceMeshDetector.get_keypoints` (external model); keypoints come grouped
per detected face. -/
structure FaceKp where
  landmark_id : Nat
  x : Int
  y : Int
  deriving DecidableEq

/-- Lines appended for one detected face in the video report
(face_keypoints.py lines 62-64): a 1-based `Face` header and one indented
line per landmark. -/
def faceLinesVideo (face_idx : Nat) (face_keypoints : List FaceKp) : List String :=
  ("  Face " ++ Nat.repr (face_idx + 1) ++ ":") ::
    face_keypoints.map (fun kp =>
      "    Landmark " ++ Nat.repr kp.landmark_id ++ ": (" ++ Int.repr kp.x ++ ", " ++
        Int.repr kp.y ++ ")")

/-- Lines appended for one sampled frame (face_keypoints.py lines 59-66). -/
def faceFrameLines (keypoints_data : List (List FaceKp)) (current_second : Nat) :
    List String :=
  if keypoints_data ≠ [] then
    ("Second " ++ Nat.repr current_second ++ ":") ::
      keypoints_data.enum.flatMap (fun p => faceLinesVideo p.1 p.2)
  else
    ["Second " ++ Nat.repr current_second ++ ": No faces detected"]

/-- Embeds `extract_video_keypoints` (face_keypoints.py lines 31-78);
identical control flow to the pose version, with the face renderer and
the "No faces detected" sentinel. -/
def extract_video_keypoints (cap : VideoStream (List (List FaceKp))) : VideoExtract :=
  if cap.opened = false then
    ⟨.ok none, false, false, false, [], [], []⟩
  else if cap.fps ≤ 0 then
    ⟨.ok none, false, false, true, [], [], []⟩
  else
    let frame_interval : Nat := (pyInt cap.fps).toNat
    if frame_interval = 0 then
      match cap.frames with
      | [] => ⟨.ok (some "No frames processed"), true, true, true, [], [], []⟩
      | _ :: _ => ⟨.error (), true, false, false, [], [], []⟩
    else
      let acc := videoLoop faceFrameLines frame_interval cap.frames 0 0
      if acc.err then
        ⟨.error (), true, false, false, acc.lines, acc.calls, acc.seconds⟩
      else
        ⟨.ok (some (if acc.lines = [] then "No frames processed"
                    else String.intercalate "\n" acc.lines)),
         true, true, true, acc.lines, acc.calls, acc.seconds⟩

/-- Embeds `extract_image_keypoints` (face_keypoints.py lines 8-28):
`detector.close()` runs before the emptiness test; the sentinel is
"No faces detected"; in the image report the `Face` headers are
unindented and the landmarks singly indented (lines 23-26). -/
def extract_image_keypoints (img : ImageInput (List (List FaceKp))) : ImageExtract :=
  if img.readable = false then ⟨.ok none, false, false⟩
  else
    match img.detections with
    | .error _ => ⟨.error (), true, false⟩
    | .ok keypoints_data =>
      if keypoints_data = [] then ⟨.ok (some "No faces detected"), true, true⟩
      else
        ⟨.ok (some (String.intercalate "\n"
            (keypoints_data.enum.flatMap (fun p =>
              ("Face " ++ Nat.repr (p.1 + 1) ++ ":") ::
                p.2.map (fun kp =>
                  "  Landmark " ++ Nat.repr kp.landmark_id ++ ": (" ++ Int.repr kp.x ++
                    ", " ++ Int.repr kp.y ++ ")"))))), true, true⟩

/-- Embeds `save_keypoints` (face_keypoints.py lines 81-107); the default
directory convention is `data/results/face_keypoints`. -/
def save_keypoints (path : String) (img : ImageInput (List (List FaceKp)))
    (cap : VideoStream (List (List FaceKp))) (output_dir : Option String) :
    Except Unit (Option String) × List FsEvent :=
  let file_type := FileUtils.is_video_or_image path
  let r : Except Unit (Option String) :=
    if file_type = "image" then (extract_image_keypoints img).result
    else if file_type = "video" then (extract_video_keypoints cap).result
    else .ok none
  match r with
  | .error e => (.error e, [])
  | .ok none => (.ok none, [])
  | .ok (some keypoints_text) =>
    let dir := output_dir.getD "data/results/face_keypoints"
    let output_file := dir ++ "/" ++ FileUtils.pathStem path ++ ".txt"
    (.ok (some output_file), [.mkdir dir, .write output_file keypoints_text])

end FaceKeypoints

namespace TextBoxes

/-- One OCR text box as returned by `OCRTextExtractor.extract_text_boxes`
(external model): recognized text plus pixel geometry and layout indices. -/
structure TextBox where
  text : String
  left : Int
  top : Int
  width : Int
  height : Int
  block_num : Int
  par_num : Int
  line_num : Int
  word_num : Int
  deriving DecidableEq

/-- Lines appended for one text box in the video report
(text_boxes.py lines 67-70); `idx` is the 1-based `enumerate` index. -/
def textBoxLinesVideo (idx : Nat) (box : TextBox) : List String :=
  ["  Text Box " ++ Nat.repr (idx + 1) ++ ":",
   "    Text: " ++ box.text,
   "    Position: (x=" ++ Int.repr box.left ++ ", y=" ++ Int.repr box.top ++ ")",
   "    Size: (width=" ++ Int.repr box.width ++ ", height=" ++ Int.repr box.height ++ ")"]

/-- Lines appended for one sampled frame (text_boxes.py lines 62-75):
either the labelled group — count line, the boxes, then a blank line — or
the labelled sentinel followed by a blank line. -/
def textFrameLines (text_boxes : List TextBox) (current_second : Nat) : List String :=
  if text_boxes ≠ [] then
    ("Second " ++ Nat.repr current_second ++ ":") ::
      ("  Total text boxes: " ++ Nat.repr text_boxes.length) ::
      (text_boxes.enum.flatMap (fun p => textBoxLinesVideo p.1 p.2) ++ [""])
  else
    ["Second " ++ Nat.repr current_second ++ ": No text detected", ""]

/-- Embeds `extract_video_text_boxes` (text_boxes.py lines 35-86);
identical control flow to the pose version except that the source never
releases the OCR extractor (there is no `close()` call), so `closed` is
`false` on every path. -/
def extract_video_text_boxes (cap : VideoStream (List TextBox)) : VideoExtract :=
  if cap.opened = false then
    ⟨.ok none, false, false, false, [], [], []⟩
  else if cap.fps ≤ 0 then
    ⟨.ok none, false, false, true, [], [], []⟩
  else
    let frame_interval : Nat := (pyInt cap.fps).toNat
    if frame_interval = 0 then
      match cap.frames with
      | [] => ⟨.ok (some "No frames processed"), true, false, true, [], [], []⟩
      | _ :: _ => ⟨.error (), true, false, false, [], [], []⟩
    else
      let acc := videoLoop textFrameLines frame_interval cap.frames 0 0
      if acc.err then
        ⟨.error (), true, false, false, acc.lines, acc.calls, acc.seconds⟩
      else
        ⟨.ok (some (if acc.lines = [] then "No frames processed"
                    else String.intercalate "\n" acc.lines)),
         true, false, true, acc.lines, acc.calls, acc.seconds⟩

/-- Embeds `extract_image_text_boxes` (text_boxes.py lines 8-32):
unreadable image returns `None`; zero boxes return the "No text detected"
sentinel; otherwise a count header, a blank line, and per box a 1-based
header, text, position, size, layout line, and a trailing blank line. -/
def extract_image_text_boxes (img : ImageInput (List TextBox)) : ImageExtract :=
  if img.readable = false then ⟨.ok none, false, false⟩
  else
    match img.detections with
    | .error _ => ⟨.error (), true, false⟩
    | .ok text_boxes =>
      if text_boxes = [] then ⟨.ok (some "No text detected"), true, false⟩
      else
        ⟨.ok (some (String.intercalate "\n"
            (("Total text boxes detected: " ++ Nat.repr text_boxes.length) :: "" ::
              text_boxes.enum.flatMap (fun p =>
                ["Text Box " ++ Nat.repr (p.1 + 1) ++ ":",
                 "  Text: " ++ p.2.text,
                 "  Position: (x=" ++ Int.repr p.2.left ++ ", y=" ++ Int.repr p.2.top ++ ")",
                 "  Size: (width=" ++ Int.repr p.2.width ++ ", height=" ++
                   Int.repr p.2.height ++ ")",
                 "  Block: " ++ Int.repr p.2.block_num ++ ", Paragraph: " ++
                   Int.repr p.2.par_num ++ ", Line: " ++ Int.repr p.2.line_num ++
                   ", Word: " ++ Int.repr p.2.word_num,
                 ""])))), true, false⟩

/-- Embeds `save_text_boxes` (text_boxes.py lines 89-115); the default
directory convention is `data/results/text_boxes`. -/
def save_text_boxes (path : String) (img : ImageInput (List TextBox))
    (cap : VideoStream (List TextBox)) (output_dir : Option String) :
    Except Unit (Option String) × List FsEvent :=
  let file_type := FileUtils.is_video_or_image path
  let r : Except Unit (Option String) :=
    if file_type = "image" then (extract_image_text_boxes img).result
    else if file_type = "video" then (extract_video_text_boxes cap).result
    else .ok none
  match r with
  | .error e => (.error e, [])
  | .ok none => (.ok none, [])
  | .ok (some text_boxes_text) =>
    let dir := output_dir.getD "data/results/text_boxes"
    let output_file := dir ++ "/" ++ FileUtils.pathStem path ++ ".txt"
    (.ok (some output_file), [.mkdir dir, .write output_file text_boxes_text])

end TextBoxes

namespace SoundExtraction

/-- Python `str.capitalize()`: upper-case the first character, lower-case
the rest (ASCII track names here). -/
def pyCapitalize (s : String) : String :=
  match s.data with
  | [] => ""
  | c :: rest => String.mk (c.toUpper :: rest.map Char.toLower)

/-- One entry of the mapping returned by `AudioSeparator.separate_video_audio`
(external model), as the manifest writer observes it: the mapping key, the
artifact's file name, whether the artifact currently exists on disk, its
byte size, and the four values `analyze_dynamics` reports for it.
The dynamics values are inputs of the model because `analyze_dynamics`
derives them from the audio samples via floating-point `sqrt`/`log10`
(sound_extraction.py lines 9-35), outside this embedding's scope. -/
structure Track where
  name : String
  fileName : String
  path_exists : Bool
  st_size : Nat
  rms_db : ℚ
  peak_db : ℚ
  dynamic_range_db : ℚ
  crest_factor : ℚ
  deriving DecidableEq

/-- The 60-character separator line `'=' * 60`. -/
def sep60 : String := String.mk (List.replicate 60 '=')

/-- Embeds the manifest-writing block of `separate_video_audio`
(sound_extraction.py lines 54-78) as the ordered list of `f.write`
chunks: header, separator, track list (existing tracks only, in mapping
order, each with `st_size / (1024*1024)` MB to two decimals), the
DYNAMICS ANALYSIS section (existing tracks only), separator, and the
`Total tracks` footer counting every entry of the mapping. -/
def manifestChunks (video_name : String) (results : List Track) : List String :=
  ("Audio Separation Results for: " ++ video_name ++ "\n") ::
  (sep60 ++ "\n\n") ::
  ((results.filter (fun t => t.path_exists)).map (fun t =>
      pyCapitalize t.name ++ ": " ++ t.fileName ++ " (" ++
        fmtFixed 2 (mkRat t.st_size (1024 * 1024)) ++ " MB)\n")
  ++ ("\n" ++ sep60 ++ "\n") ::
     "DYNAMICS ANALYSIS\n" ::
     (sep60 ++ "\n\n") ::
     ((results.filter (fun t => t.path_exists)).flatMap (fun t =>
        [pyCapitalize t.name ++ ":\n",
         "  RMS Level: " ++ fmtFixed 2 t.rms_db ++ " dB\n",
         "  Peak Level: " ++ fmtFixed 2 t.peak_db ++ " dB\n",
         "  Dynamic Range: " ++ fmtFixed 2 t.dynamic_range_db ++ " dB\n",
         "  Crest Factor: " ++ fmtFixed 2 t.crest_factor ++ "\n",
         "\n"])
  ++ [sep60 ++ "\n",
      "Total tracks: " ++ Nat.repr results.length ++ "\n"]))

/-- Embeds `separate_video_audio` (sound_extraction.py lines 38-80): the
output directory (explicit, or the convention path including the video
stem) is created before the separator runs; a `None` separation result
returns `None`; otherwise the manifest is written to `manifest.txt` in
the output directory and that path returned. -/
def separate_video_audio (video_path : String) (results : Option (List Track))
    (output_dir : Option String) : Option String × List FsEvent :=
  let dir := output_dir.getD
    ("data/results/sound_extraction/" ++ FileUtils.pathStem video_path)
  match results with
  | none => (none, [.mkdir dir])
  | some tracks =>
    let output_file := dir ++ "/manifest.txt"
    (some output_file,
     [.mkdir dir,
      .write output_file (String.join (manifestChunks (FileUtils.pathName video_path) tracks))])

/-- Modelled from the spec (claim C4's words, spec section 4.7), for
comparison with the source's `manifestChunks`: header line, separator,
blank line; one body line per existing entry; then a blank line, a second
separator, and the `Total tracks` footer, with nothing else between the
body and the footer. -/
def manifestPerClaimC4 (video_name : String) (results : List Track) : String :=
  "Audio Separation Results for: " ++ video_name ++ "\n" ++
  sep60 ++ "\n\n" ++
  String.join ((results.filter (fun t => t.path_exists)).map (fun t =>
      pyCapitalize t.name ++ ": " ++ t.fileName ++ " (" ++
        fmtFixed 2 (mkRat t.st_size (1024 * 1024)) ++ " MB)\n")) ++
  "\n" ++ sep60 ++ "\n" ++
  "Total tracks: " ++ Nat.repr results.length ++ "\n"

end SoundExtraction

/-! ### Decimal digits of `Nat.repr`

`Nat.repr` is core's decimal printer; these lemmas show its output is a
nonempty string of digit characters whose decimal reading is the printed
number, so `Second {n}` headers can be re-parsed. -/


/-- Characterization of a decimal spelling: a nonempty run of digit
characters whose decimal reading is `n`. -/
def DecSpelling (ds : List Char) (n : Nat) : Prop :=
  ds ≠ [] ∧ (∀ c ∈ ds, c.isDigit = true) ∧ decValue ds = n

theorem digitChar_isDigit (m : Nat) (h : m < 10) : (Nat.digitChar m).isDigit = true := by
  interval_cases m <;> decide

theorem digitChar_val (m : Nat) (h : m < 10) : (Nat.digitChar m).toNat - 48 = m := by
  interval_cases m <;> decide

theorem decValue_snoc (ds : List Char) (c : Char) :
    decValue (ds ++ [c]) = 10 * decValue ds + (c.toNat - 48) := by
  simp [decValue, List.foldl_append]
  omega

theorem decSpelling_toDigitsCore (fuel n : Nat) (acc : List Char) (hfuel : n < fuel) :
    ∃ ds, DecSpelling ds n ∧ Nat.toDigitsCore 10 fuel n acc = ds ++ acc := by
  induction fuel generalizing n acc with
  | zero => omega
  | succ f ih =>
    rw [Nat.toDigitsCore]
    have hmod : n % 10 < 10 := Nat.mod_lt n (by omega)
    by_cases h10 : n / 10 = 0
    · have hsmall : n < 10 := by
        have := (Nat.div_eq_zero_iff (by omega : 0 < 10)).mp h10
        omega
      refine ⟨[Nat.digitChar (n % 10)],
        ⟨by simp, fun c hc => ?_, ?_⟩, by simp [h10]⟩
      · rw [List.mem_singleton.mp hc]
        exact digitChar_isDigit _ hmod
      · have hv := digitChar_val (n % 10) hmod
        rw [Nat.mod_eq_of_lt hsmall] at hv ⊢
        simpa [decValue] using hv
    · obtain ⟨ds, ⟨hne, hdig, hval⟩, heq⟩ :=
        ih (n / 10) (Nat.digitChar (n % 10) :: acc)
          (by
            have := Nat.div_lt_self (by omega : 0 < n) (by omega : 1 < 10)
            omega)
      refine ⟨ds ++ [Nat.digitChar (n % 10)], ⟨by simp, fun c hc => ?_, ?_⟩, ?_⟩
      · rcases List.mem_append.mp hc with hc | hc
        · exact hdig c hc
        · rw [List.mem_singleton.mp hc]
          exact digitChar_isDigit _ hmod
      · rw [decValue_snoc, hval, digitChar_val (n % 10) hmod]
        omega
      · rw [if_neg h10, heq, List.append_assoc, List.singleton_append]

theorem decSpelling_repr (n : Nat) : DecSpelling (Nat.repr n).data n := by
  obtain ⟨ds, hds, heq⟩ := decSpelling_toDigitsCore (n + 1) n [] (Nat.lt_succ_self n)
  have h0 : (Nat.repr n).data = ds := by
    show Nat.toDigitsCore 10 (n + 1) n [] = ds
    rw [heq, List.append_nil]
  rw [h0]
  exact hds

/-! ### Re-parsing `Second` headers from report lines -/

/-- Parse a report line as a `Second {n}` group header: succeeds exactly on
lines that start with `Second ` followed by at least one digit, returning
the number read from the maximal digit run. -/
def headerSeconds (l : List Char) : Option Nat :=
  if l.take 7 = "Second ".data then
    let ds := (l.drop 7).takeWhile Char.isDigit
    if ds = [] then none else some (decValue ds)
  else none

/-- All `Second {n}` values appearing in a report's lines, in order. -/
def reportSeconds (lines : List String) : List Nat :=
  lines.filterMap (fun line => headerSeconds line.data)

theorem takeWhile_of_all_head (p : Char → Bool) (xs ys : List Char)
    (hx : ∀ c ∈ xs, p c = true) (hy : ∀ c, ys.head? = some c → p c = false) :
    (xs ++ ys).takeWhile p = xs := by
  induction xs with
  | nil =>
    cases ys with
    | nil => rfl
    | cons y t => simp [List.takeWhile_cons, hy y rfl]
  | cons x t ihx =>
    rw [List.cons_append, List.takeWhile_cons, hx x (by simp), if_pos rfl,
      ihx (fun c hc => hx c (by simp [hc]))]

/-- A line of the form `Second {n}` followed by a non-digit tail (or
nothing) parses back to `n`. -/
theorem headerSeconds_header (n : Nat) (t : List Char)
    (ht : ∀ c, t.head? = some c → c.isDigit = false) :
    headerSeconds ("Second ".data ++ ((Nat.repr n).data ++ t)) = some n := by
  obtain ⟨hne, hdig, hval⟩ := decSpelling_repr n
  unfold headerSeconds
  rw [show (7 : ℕ) = ("Second ".data).length from rfl, List.take_left, List.drop_left,
    takeWhile_of_all_head Char.isDigit _ _ hdig ht]
  simp [hne, hval]

/-- A line whose first seven characters differ from `Second ` parses to
nothing. -/
theorem headerSeconds_prefix_ne (a r : List Char) (h7 : 7 ≤ a.length)
    (hne : a.take 7 ≠ "Second ".data) : headerSeconds (a ++ r) = none := by
  unfold headerSeconds
  rw [List.take_append_of_le_length h7]
  simp [hne]

/-! ### Properties of the sampling loop -/

theorem videoLoop_seconds_eq_range {α : Type} (render : α → Nat → List String) (i : Nat) :
    ∀ (fs : List (Except Unit α)) (n c : Nat),
      (videoLoop render i fs n c).seconds =
        List.range' c (videoLoop render i fs n c).seconds.length := by
  intro fs
  induction fs with
  | nil => intro n c; simp [videoLoop]
  | cons f rest ih =>
    intro n c
    simp only [videoLoop]
    by_cases hs : n % i = 0
    · rw [if_pos hs]
      cases f with
      | error u => simp
      | ok a =>
        simp only [List.length_cons]
        rw [List.range'_succ]
        exact congrArg (c :: ·) (ih (n + 1) (c + 1))
    · rw [if_neg hs]
      exact ih (n + 1) c

theorem videoLoop_reportSeconds {α : Type} (render : α → Nat → List String)
    (hr : ∀ (a : α) (c : Nat), reportSeconds (render a c) = [c]) (i : Nat) :
    ∀ (fs : List (Except Unit α)) (n c : Nat),
      reportSeconds (videoLoop render i fs n c).lines = (videoLoop render i fs n c).seconds := by
  intro fs
  induction fs with
  | nil => intro n c; simp [videoLoop, reportSeconds]
  | cons f rest ih =>
    intro n c
    simp only [videoLoop]
    by_cases hs : n % i = 0
    · rw [if_pos hs]
      cases f with
      | error u => simp [reportSeconds]
      | ok a =>
        show reportSeconds (render a c ++ (videoLoop render i rest (n + 1) (c + 1)).lines) = _
        unfold reportSeconds
        rw [List.filterMap_append]
        show reportSeconds (render a c) ++ reportSeconds (videoLoop render i rest (n + 1) (c + 1)).lines = _
        rw [hr a c, ih (n + 1) (c + 1)]
        rfl
    · rw [if_neg hs]
      exact ih (n + 1) c

theorem videoLoop_calls_of_ok {α : Type} (render : α → Nat → List String) (i : Nat) :
    ∀ (fs : List (Except Unit α)) (n c : Nat), (∀ f ∈ fs, f ≠ Except.error ()) →
      (videoLoop render i fs n c).err = false ∧
      (videoLoop render i fs n c).calls =
        ((List.range fs.length).map (· + n)).filter (fun m => m % i = 0) ∧
      (videoLoop render i fs n c).seconds.length = (videoLoop render i fs n c).calls.length := by
  intro fs
  induction fs with
  | nil => intro n c _; simp [videoLoop]
  | cons f rest ih =>
    intro n c hok
    have hrange : (List.range (rest.length + 1)).map (· + n) =
        n :: (List.range rest.length).map (· + (n + 1)) := by
      rw [List.range_succ_eq_map]
      simp only [List.map_cons, List.map_map, Nat.zero_add]
      refine congrArg (n :: ·) (List.map_congr_left ?_)
      intro m _
      simp [Function.comp, Nat.succ_eq_add_one]
      omega
    obtain ⟨iherr, ihcalls, ihlen⟩ := ih (n + 1) (c + 1) (fun g hg => hok g (by simp [hg]))
    obtain ⟨iherr2, ihcalls2, ihlen2⟩ := ih (n + 1) c (fun g hg => hok g (by simp [hg]))
    simp only [videoLoop, List.length_cons, hrange]
    by_cases hs : n % i = 0
    · rw [if_pos hs]
      cases f with
      | error u => exact absurd rfl (hok (Except.error u) (by simp))
      | ok a =>
        refine ⟨iherr, ?_, ?_⟩
        · show n :: (videoLoop render i rest (n + 1) (c + 1)).calls = _
          rw [List.filter_cons_of_pos (by simpa using hs), ihcalls]
        · simp only [List.length_cons]
          omega
    · rw [if_neg hs]
      refine ⟨iherr2, ?_, ?_⟩
      · rw [List.filter_cons_of_neg (by simpa using hs), ihcalls2]
      · exact ihlen2

/-- A report line `Second {c}` followed by a tail that starts with a colon
parses back to `c`. -/
theorem headerSeconds_second_label (c : Nat) (t : String) (h : t.data.head? = some ':') :
    headerSeconds ("Second " ++ Nat.repr c ++ t).data = some c := by
  have hd : ("Second " ++ Nat.repr c ++ t).data =
      "Second ".data ++ ((Nat.repr c).data ++ t.data) := by
    simp [String.data_append, List.append_assoc]
  rw [hd]
  apply headerSeconds_header
  intro c0 hc
  rw [h] at hc
  injection hc with hc0
  rw [← hc0]
  decide

theorem reportSeconds_poseFrameLines (kps : List BodyKeypoints.PoseKp) (c : Nat) :
    reportSeconds (BodyKeypoints.poseFrameLines kps c) = [c] := by
  have hhdr := headerSeconds_second_label c ":" rfl
  have hsent := headerSeconds_second_label c ": No pose detected" rfl
  have hbody : headerSeconds "  Body Pose:".data = none := by decide
  have hkp : ∀ kp : BodyKeypoints.PoseKp,
      headerSeconds (BodyKeypoints.poseLineVideo kp).data = none := by
    intro kp
    have hd : (BodyKeypoints.poseLineVideo kp).data = "    Landmark ".data ++
        ((Nat.repr kp.landmark_id).data ++ (": (".data ++ ((Int.repr kp.x).data ++
          (", ".data ++ ((Int.repr kp.y).data ++ (") | Visibility: ".data ++
            (fmtFixed 3 kp.visibility).data)))))) := by
      simp [BodyKeypoints.poseLineVideo, String.data_append, List.append_assoc]
    rw [hd]
    exact headerSeconds_prefix_ne _ _ (by decide) (by decide)
  unfold BodyKeypoints.poseFrameLines
  by_cases hne : kps ≠ []
  · rw [if_pos hne]
    unfold reportSeconds
    rw [List.filterMap_cons, hhdr, List.filterMap_cons, hbody, List.filterMap_map]
    have h1 : kps.filterMap
        ((fun line => headerSeconds line.data) ∘ BodyKeypoints.poseLineVideo) = [] :=
      List.filterMap_eq_nil_iff.mpr (fun kp _ => hkp kp)
    rw [h1]
  · rw [if_neg hne]
    unfold reportSeconds
    rw [List.filterMap_cons, hsent]
    rfl

theorem reportSeconds_textFrameLines (boxes : List TextBoxes.TextBox) (c : Nat) :
    reportSeconds (TextBoxes.textFrameLines boxes c) = [c] := by
  have hhdr := headerSeconds_second_label c ":" rfl
  have hsent := headerSeconds_second_label c ": No text detected" rfl
  have hcount : headerSeconds ("  Total text boxes: " ++ Nat.repr boxes.length).data = none := by
    have hd : ("  Total text boxes: " ++ Nat.repr boxes.length).data =
        "  Total text boxes: ".data ++ (Nat.repr boxes.length).data := by
      simp [String.data_append]
    rw [hd]
    exact headerSeconds_prefix_ne _ _ (by decide) (by decide)
  have hblank : headerSeconds "".data = none := by decide
  have hbox : ∀ line ∈ boxes.enum.flatMap (fun p => TextBoxes.textBoxLinesVideo p.1 p.2),
      headerSeconds line.data = none := by
    intro line hline
    obtain ⟨p, _, hmem⟩ := List.mem_flatMap.mp hline
    unfold TextBoxes.textBoxLinesVideo at hmem
    simp only [List.mem_cons, List.mem_singleton, List.not_mem_nil, or_false] at hmem
    rcases hmem with h | h | h | h
    · subst h
      have hd : ("  Text Box " ++ Nat.repr (p.1 + 1) ++ ":").data =
          "  Text Box ".data ++ ((Nat.repr (p.1 + 1)).data ++ ":".data) := by
        simp [String.data_append, List.append_assoc]
      rw [hd]
      exact headerSeconds_prefix_ne _ _ (by decide) (by decide)
    · subst h
      have hd : ("    Text: " ++ p.2.text).data = "    Text: ".data ++ p.2.text.data := by
        simp [String.data_append]
      rw [hd]
      exact headerSeconds_prefix_ne _ _ (by decide) (by decide)
    · subst h
      have hd : ("    Position: (x=" ++ Int.repr p.2.left ++ ", y=" ++
          Int.repr p.2.top ++ ")").data = "    Position: (x=".data ++
          ((Int.repr p.2.left).data ++ (", y=".data ++ ((Int.repr p.2.top).data ++
            ")".data))) := by
        simp [String.data_append, List.append_assoc]
      rw [hd]
      exact headerSeconds_prefix_ne _ _ (by decide) (by decide)
    · subst h
      have hd : ("    Size: (width=" ++ Int.repr p.2.width ++ ", height=" ++
          Int.repr p.2.height ++ ")").data = "    Size: (width=".data ++
          ((Int.repr p.2.width).data ++ (", height=".data ++ ((Int.repr p.2.height).data ++
            ")".data))) := by
        simp [String.data_append, List.append_assoc]
      rw [hd]
      exact headerSeconds_prefix_ne _ _ (by decide) (by decide)
  unfold TextBoxes.textFrameLines
  by_cases hne : boxes ≠ []
  · rw [if_pos hne]
    unfold reportSeconds
    rw [List.filterMap_cons, hhdr, List.filterMap_cons, hcount, List.filterMap_append]
    have h1 : (boxes.enum.flatMap (fun p => TextBoxes.textBoxLinesVideo p.1 p.2)).filterMap
        (fun line => headerSeconds line.data) = [] :=
      List.filterMap_eq_nil_iff.mpr hbox
    rw [h1, List.filterMap_cons, hblank]
    rfl
  · rw [if_neg hne]
    unfold reportSeconds
    rw [List.filterMap_cons, hsent, List.filterMap_cons, hblank]
    rfl

/-! ### Unfolding the video extraction wrappers on the successful path -/

theorem extract_pose_eq_of_ok (cap : VideoStream (List BodyKeypoints.PoseKp))
    (hopen : cap.opened = true) (hpos : ¬ cap.fps ≤ 0)
    (hi : ¬ (pyInt cap.fps).toNat = 0)
    (herr : (videoLoop BodyKeypoints.poseFrameLines (pyInt cap.fps).toNat cap.frames 0 0).err
      = false) :
    BodyKeypoints.extract_video_keypoints cap =
      ⟨.ok (some (if (videoLoop BodyKeypoints.poseFrameLines (pyInt cap.fps).toNat
              cap.frames 0 0).lines = [] then "No frames processed"
            else String.intercalate "\n" (videoLoop BodyKeypoints.poseFrameLines
              (pyInt cap.fps).toNat cap.frames 0 0).lines)),
       true, true, true,
       (videoLoop BodyKeypoints.poseFrameLines (pyInt cap.fps).toNat cap.frames 0 0).lines,
       (videoLoop BodyKeypoints.poseFrameLines (pyInt cap.fps).toNat cap.frames 0 0).calls,
       (videoLoop BodyKeypoints.poseFrameLines (pyInt cap.fps).toNat cap.frames 0 0).seconds⟩ := by
  unfold BodyKeypoints.extract_video_keypoints
  simp [hopen, hpos, hi, herr]

theorem extract_text_eq_of_ok (cap : VideoStream (List TextBoxes.TextBox))
    (hopen : cap.opened = true) (hpos : ¬ cap.fps ≤ 0)
    (hi : ¬ (pyInt cap.fps).toNat = 0)
    (herr : (videoLoop TextBoxes.textFrameLines (pyInt cap.fps).toNat cap.frames 0 0).err
      = false) :
    TextBoxes.extract_video_text_boxes cap =
      ⟨.ok (some (if (videoLoop TextBoxes.textFrameLines (pyInt cap.fps).toNat
              cap.frames 0 0).lines = [] then "No frames processed"
            else String.intercalate "\n" (videoLoop TextBoxes.textFrameLines
              (pyInt cap.fps).toNat cap.frames 0 0).lines)),
       true, false, true,
       (videoLoop TextBoxes.textFrameLines (pyInt cap.fps).toNat cap.frames 0 0).lines,
       (videoLoop TextBoxes.textFrameLines (pyInt cap.fps).toNat cap.frames 0 0).calls,
       (videoLoop TextBoxes.textFrameLines (pyInt cap.fps).toNat cap.frames 0 0).seconds⟩ := by
  unfold TextBoxes.extract_video_text_boxes
  simp [hopen, hpos, hi, herr]

/-- C1: for every video stream opened with reported fps = 30 that decodes
exactly 90 frames (none of which makes the detector raise), the temporal
sampling loop of `extract_video_keypoints` invokes the detector exactly 3
times, on frames numbered 0, 30 and 60, and emits exactly the per-second
groups labelled `Second 0`, `Second 1`, `Second 2`, in that order. -/
theorem temporal_sampler_30fps_90frames (cap : VideoStream (List BodyKeypoints.PoseKp))
    (hopen : cap.opened = true) (hfps : cap.fps = 30)
    (hlen : cap.frames.length = 90)
    (hok : ∀ f ∈ cap.frames, f ≠ Except.error ()) :
    (BodyKeypoints.extract_video_keypoints cap).calls = [0, 30, 60] ∧
      (BodyKeypoints.extract_video_keypoints cap).seconds = [0, 1, 2] ∧
      reportSeconds (BodyKeypoints.extract_video_keypoints cap).lines = [0, 1, 2] := by
  have hint : (pyInt cap.fps).toNat = 30 := by rw [hfps]; decide
  obtain ⟨herr, hcalls, hslen⟩ :=
    videoLoop_calls_of_ok BodyKeypoints.poseFrameLines 30 cap.frames 0 0 hok
  have hcalls3 : (videoLoop BodyKeypoints.poseFrameLines 30 cap.frames 0 0).calls
      = [0, 30, 60] := by
    rw [hcalls, hlen]
    decide
  have hsec3 : (videoLoop BodyKeypoints.poseFrameLines 30 cap.frames 0 0).seconds
      = [0, 1, 2] := by
    rw [videoLoop_seconds_eq_range BodyKeypoints.poseFrameLines 30 cap.frames 0 0, hslen,
      hcalls3]
    decide
  have hrep : reportSeconds (videoLoop BodyKeypoints.poseFrameLines 30 cap.frames 0 0).lines
      = [0, 1, 2] := by
    rw [videoLoop_reportSeconds BodyKeypoints.poseFrameLines reportSeconds_poseFrameLines
      30 cap.frames 0 0, hsec3]
  have hx := extract_pose_eq_of_ok cap hopen (by rw [hfps]; decide) (by rw [hint]; decide)
    (by rw [hint]; exact herr)
  rw [hint] at hx
  rw [hx]
  exact ⟨hcalls3, hsec3, hrep⟩

/-- C1 witness: a concrete 30 fps stream of 90 frames on which the
detector finds nothing. -/
theorem temporal_sampler_30fps_90frames_witness :
    (BodyKeypoints.extract_video_keypoints ⟨true, 30, List.replicate 90 (Except.ok [])⟩).calls
      = [0, 30, 60] ∧
    (BodyKeypoints.extract_video_keypoints
      ⟨true, 30, List.replicate 90 (Except.ok [])⟩).seconds = [0, 1, 2] ∧
    reportSeconds (BodyKeypoints.extract_video_keypoints
      ⟨true, 30, List.replicate 90 (Except.ok [])⟩).lines = [0, 1, 2] :=
  temporal_sampler_30fps_90frames ⟨true, 30, List.replicate 90 (Except.ok [])⟩ rfl rfl
    (by simp) (by
      intro f hf h
      rw [List.eq_of_mem_replicate hf] at h
      simp at h)

/-- Truncating a rational that is at least 1 yields an integer that is at
least 1 (Python `int(fps) >= 1` whenever the reported `fps >= 1`). -/
theorem one_le_pyInt (q : ℚ) (h : 1 ≤ q) : 1 ≤ pyInt q := by
  have hnum : (q.den : ℤ) ≤ q.num := by
    rw [Rat.le_def] at h
    simpa using h
  have hden : (0 : ℤ) < q.den := by exact_mod_cast q.den_pos
  unfold pyInt
  rw [Int.tdiv_eq_ediv (by omega) (by omega)]
  exact (Int.le_ediv_iff_mul_le hden).mpr (by omega)

/-- C2 counterexample: a stream reporting `fps = 1/2 > 0` with one decodable
frame makes `extract_video_keypoints` raise (`frame_number % int(fps)` is a
division by zero since `int(0.5) == 0`), rather than return a report
string. -/
theorem video_extraction_fps_half_raises :
    (0 : ℚ) < mkRat 1 2 ∧
    (BodyKeypoints.extract_video_keypoints
      ⟨true, mkRat 1 2, [Except.ok []]⟩).result = Except.error () :=
  ⟨by decide, rfl⟩

/-- C2 (amended): for both video extractors, a stream that fails to open, or
reports `fps <= 0`, yields `None` without running the sampler; and for every
reported `fps >= 1`, provided no detector call raises, the traversal runs to
stream exhaustion and returns a report string without raising. (As stated
the claim is false: for `0 < fps < 1` the interval `int(fps)` is zero and
the first decoded frame raises `ZeroDivisionError`.) -/
theorem video_extraction_no_fault :
    (∀ cap : VideoStream (List BodyKeypoints.PoseKp),
      (cap.opened = false → (BodyKeypoints.extract_video_keypoints cap).result = .ok none) ∧
      (cap.fps ≤ 0 → (BodyKeypoints.extract_video_keypoints cap).result = .ok none ∧
        (BodyKeypoints.extract_video_keypoints cap).calls = []) ∧
      (cap.opened = true → 1 ≤ cap.fps → (∀ f ∈ cap.frames, f ≠ Except.error ()) →
        ∃ s, (BodyKeypoints.extract_video_keypoints cap).result = .ok (some s))) ∧
    (∀ cap : VideoStream (List TextBoxes.TextBox),
      (cap.opened = false → (TextBoxes.extract_video_text_boxes cap).result = .ok none) ∧
      (cap.fps ≤ 0 → (TextBoxes.extract_video_text_boxes cap).result = .ok none ∧
        (TextBoxes.extract_video_text_boxes cap).calls = []) ∧
      (cap.opened = true → 1 ≤ cap.fps → (∀ f ∈ cap.frames, f ≠ Except.error ()) →
        ∃ s, (TextBoxes.extract_video_text_boxes cap).result = .ok (some s))) := by
  constructor
  · intro cap
    refine ⟨?_, ?_, ?_⟩
    · intro hcl
      unfold BodyKeypoints.extract_video_keypoints
      simp [hcl]
    · intro hfps
      unfold BodyKeypoints.extract_video_keypoints
      by_cases hop : cap.opened = false <;> simp [hop, hfps]
    · intro hop hfps hok
      have h1 : ¬ cap.fps ≤ 0 := by
        intro hle
        exact absurd (le_trans hfps hle) (by norm_num)
      have h2 : ¬ (pyInt cap.fps).toNat = 0 := by
        have := one_le_pyInt cap.fps hfps
        omega
      obtain ⟨herr, -, -⟩ :=
        videoLoop_calls_of_ok BodyKeypoints.poseFrameLines (pyInt cap.fps).toNat
          cap.frames 0 0 hok
      rw [extract_pose_eq_of_ok cap hop h1 h2 herr]
      exact ⟨_, rfl⟩
  · intro cap
    refine ⟨?_, ?_, ?_⟩
    · intro hcl
      unfold TextBoxes.extract_video_text_boxes
      simp [hcl]
    · intro hfps
      unfold TextBoxes.extract_video_text_boxes
      by_cases hop : cap.opened = false <;> simp [hop, hfps]
    · intro hop hfps hok
      have h1 : ¬ cap.fps ≤ 0 := by
        intro hle
        exact absurd (le_trans hfps hle) (by norm_num)
      have h2 : ¬ (pyInt cap.fps).toNat = 0 := by
        have := one_le_pyInt cap.fps hfps
        omega
      obtain ⟨herr, -, -⟩ :=
        videoLoop_calls_of_ok TextBoxes.textFrameLines (pyInt cap.fps).toNat
          cap.frames 0 0 hok
      rw [extract_text_eq_of_ok cap hop h1 h2 herr]
      exact ⟨_, rfl⟩

/-- C2 witness: the amended theorem applied to concrete streams — an
unopened pose stream, a `fps = 0` pose stream, and opened `fps = 1`
streams with one successfully analyzed frame for both extractors. -/
theorem video_extraction_no_fault_witness :
    (BodyKeypoints.extract_video_keypoints ⟨false, 30, []⟩).result = .ok none ∧
    (BodyKeypoints.extract_video_keypoints ⟨true, 0, [Except.ok []]⟩).result = .ok none ∧
    (∃ s, (BodyKeypoints.extract_video_keypoints
      ⟨true, 1, [Except.ok []]⟩).result = .ok (some s)) ∧
    (∃ s, (TextBoxes.extract_video_text_boxes
      ⟨true, 1, [Except.ok []]⟩).result = .ok (some s)) := by
  refine ⟨(video_extraction_no_fault.1 ⟨false, 30, []⟩).1 rfl,
    (video_extraction_no_fault.1 ⟨true, 0, [Except.ok []]⟩).2.1 (by norm_num) |>.1,
    (video_extraction_no_fault.1 ⟨true, 1, [Except.ok []]⟩).2.2 rfl (by norm_num) ?_,
    (video_extraction_no_fault.2 ⟨true, 1, [Except.ok []]⟩).2.2 rfl (by norm_num) ?_⟩ <;>
  · intro f hf h
    simp at hf
    rw [hf] at h
    simp at h

/-- C3: in every report produced by a video extraction run (pose and OCR
extractors), the `Second {n}` values that appear in the report lines are
exactly the sampler's emitted seconds for that run, and those start at 0,
are strictly increasing and have no gaps: the emitted label list is
`List.range k`, so the k-th emitted sample is labelled `k - 1`. -/
theorem report_second_headers_round_trip :
    (∀ cap : VideoStream (List BodyKeypoints.PoseKp),
      reportSeconds (BodyKeypoints.extract_video_keypoints cap).lines =
        (BodyKeypoints.extract_video_keypoints cap).seconds ∧
      (BodyKeypoints.extract_video_keypoints cap).seconds =
        List.range (BodyKeypoints.extract_video_keypoints cap).seconds.length) ∧
    (∀ cap : VideoStream (List TextBoxes.TextBox),
      reportSeconds (TextBoxes.extract_video_text_boxes cap).lines =
        (TextBoxes.extract_video_text_boxes cap).seconds ∧
      (TextBoxes.extract_video_text_boxes cap).seconds =
        List.range (TextBoxes.extract_video_text_boxes cap).seconds.length) := by
  constructor
  · intro cap
    unfold BodyKeypoints.extract_video_keypoints
    by_cases h1 : cap.opened = false
    · simp [h1, reportSeconds]
    by_cases h2 : cap.fps ≤ 0
    · simp [h1, h2, reportSeconds]
    by_cases h3 : (pyInt cap.fps).toNat = 0
    · cases hf : cap.frames <;> simp [h1, h2, h3, hf, reportSeconds]
    · have hrep := videoLoop_reportSeconds BodyKeypoints.poseFrameLines
        reportSeconds_poseFrameLines (pyInt cap.fps).toNat cap.frames 0 0
      have hsec := videoLoop_seconds_eq_range BodyKeypoints.poseFrameLines
        (pyInt cap.fps).toNat cap.frames 0 0
      rw [← List.range_eq_range'] at hsec
      cases h4 : (videoLoop BodyKeypoints.poseFrameLines (pyInt cap.fps).toNat
        cap.frames 0 0).err <;> simp [h1, h2, h3, h4, hrep, ← hsec]
  · intro cap
    unfold TextBoxes.extract_video_text_boxes
    by_cases h1 : cap.opened = false
    · simp [h1, reportSeconds]
    by_cases h2 : cap.fps ≤ 0
    · simp [h1, h2, reportSeconds]
    by_cases h3 : (pyInt cap.fps).toNat = 0
    · cases hf : cap.frames <;> simp [h1, h2, h3, hf, reportSeconds]
    · have hrep := videoLoop_reportSeconds TextBoxes.textFrameLines
        reportSeconds_textFrameLines (pyInt cap.fps).toNat cap.frames 0 0
      have hsec := videoLoop_seconds_eq_range TextBoxes.textFrameLines
        (pyInt cap.fps).toNat cap.frames 0 0
      rw [← List.range_eq_range'] at hsec
      cases h4 : (videoLoop TextBoxes.textFrameLines (pyInt cap.fps).toNat
        cap.frames 0 0).err <;> simp [h1, h2, h3, h4, hrep, ← hsec]

/-- C6: the classifier always returns a tag, computed from the lower-cased
final suffix alone (the model takes only the path string, so file contents
and existence are structurally uninspected): `image` exactly for the nine
image extensions, `video` exactly for the ten video extensions, `unknown`
otherwise. -/
theorem classify_by_suffix (p : String) :
    (FileUtils.is_video_or_image p = "image" ↔
      FileUtils.strLower (FileUtils.pathSuffix p) ∈ FileUtils.image_extensions) ∧
    (FileUtils.is_video_or_image p = "video" ↔
      FileUtils.strLower (FileUtils.pathSuffix p) ∈ FileUtils.video_extensions) ∧
    (FileUtils.is_video_or_image p = "unknown" ↔
      (FileUtils.strLower (FileUtils.pathSuffix p) ∉ FileUtils.image_extensions ∧
        FileUtils.strLower (FileUtils.pathSuffix p) ∉ FileUtils.video_extensions)) := by
  have hdisj : ∀ s ∈ FileUtils.image_extensions, s ∉ FileUtils.video_extensions := by decide
  unfold FileUtils.is_video_or_image
  by_cases h1 : FileUtils.strLower (FileUtils.pathSuffix p) ∈ FileUtils.image_extensions
  · rw [if_pos h1]
    refine ⟨⟨fun _ => h1, fun _ => rfl⟩,
      ⟨fun h => absurd h (by decide), fun h => absurd h (hdisj _ h1)⟩,
      ⟨fun h => absurd h (by decide), fun h => absurd h1 h.1⟩⟩
  · by_cases h2 : FileUtils.strLower (FileUtils.pathSuffix p) ∈ FileUtils.video_extensions
    · rw [if_neg h1, if_pos h2]
      refine ⟨⟨fun h => absurd h (by decide), fun h => absurd h h1⟩, ⟨fun _ => h2, fun _ => rfl⟩,
        ⟨fun h => absurd h (by decide), fun h => absurd h2 h.2⟩⟩
    · rw [if_neg h1, if_neg h2]
      refine ⟨⟨fun h => absurd h (by decide), fun h => absurd h h1⟩,
        ⟨fun h => absurd h (by decide), fun h => absurd h h2⟩, ⟨fun _ => ⟨h1, h2⟩, fun _ => rfl⟩⟩

/-- C7: `format_duration` truncates its numeric input toward zero, then:
below 60 it renders seconds with singular exactly at 1; at multiples of 60
it renders only a minutes clause, singular exactly at 1 minute; otherwise
it renders minutes and seconds clauses, each independently pluralized —
and the spec's six examples hold. -/
theorem format_duration_spec (q : ℚ) :
    (0 ≤ pyInt q → pyInt q < 60 →
      TimeUtils.format_duration q =
        if pyInt q = 1 then "1 second" else Int.repr (pyInt q) ++ " seconds") ∧
    (60 ≤ pyInt q → (pyInt q).fmod 60 = 0 →
      TimeUtils.format_duration q =
        if (pyInt q).fdiv 60 = 1 then "1 minute"
        else Int.repr ((pyInt q).fdiv 60) ++ " minutes") ∧
    (60 ≤ pyInt q → (pyInt q).fmod 60 ≠ 0 →
      TimeUtils.format_duration q =
        (if (pyInt q).fdiv 60 = 1 then "1 minute"
          else Int.repr ((pyInt q).fdiv 60) ++ " minutes") ++ " " ++
        (if (pyInt q).fmod 60 = 1 then "1 second"
          else Int.repr ((pyInt q).fmod 60) ++ " seconds")) ∧
    TimeUtils.format_duration 0 = "0 seconds" ∧
    TimeUtils.format_duration 1 = "1 second" ∧
    TimeUtils.format_duration 59 = "59 seconds" ∧
    TimeUtils.format_duration 60 = "1 minute" ∧
    TimeUtils.format_duration 61 = "1 minute 1 second" ∧
    TimeUtils.format_duration 125 = "2 minutes 5 seconds" := by
  refine ⟨?_, ?_, ?_, by decide, by decide, by decide, by decide, by decide, by decide⟩
  · intro h0 h60
    unfold TimeUtils.format_duration
    rw [if_pos h60]
    by_cases h1 : pyInt q = 1
    · simp [h1]
    · simp [h1]
  · intro h60 hmod
    unfold TimeUtils.format_duration
    rw [if_neg (by omega), if_pos hmod]
    by_cases h1 : (pyInt q).fdiv 60 = 1
    · simp [h1]
    · simp [h1]
  · intro h60 hmod
    unfold TimeUtils.format_duration
    rw [if_neg (by omega), if_neg hmod]

/-- C7 witness: the truncation and branch hypotheses discharged at the
concrete inputs 125 and 30.5 (which truncates to 30). -/
theorem format_duration_spec_witness :
    (60 ≤ pyInt 125 ∧ (pyInt 125).fmod 60 ≠ 0 ∧
      TimeUtils.format_duration 125 = "2 minutes 5 seconds") ∧
    (0 ≤ pyInt (mkRat 61 2) ∧ pyInt (mkRat 61 2) < 60 ∧
      TimeUtils.format_duration (mkRat 61 2) = "30 seconds") := by
  refine ⟨⟨by decide, by decide, ?_⟩, ⟨by decide, by decide, ?_⟩⟩
  · rw [(format_duration_spec 125).2.2.1 (by decide) (by decide)]
    decide
  · rw [(format_duration_spec (mkRat 61 2)).1 (by decide) (by decide)]
    decide

/-- C8: a readable image on which the detector returns zero detections
yields exactly the detector-specific sentinel string — `No pose detected`,
`No faces detected`, `No text detected` — and nothing else. -/
theorem image_zero_detections_sentinel :
    (∀ img : ImageInput (List BodyKeypoints.PoseKp), img.readable = true →
      img.detections = .ok [] →
      (BodyKeypoints.extract_image_keypoints img).result = .ok (some "No pose detected")) ∧
    (∀ img : ImageInput (List (List FaceKeypoints.FaceKp)), img.readable = true →
      img.detections = .ok [] →
      (FaceKeypoints.extract_image_keypoints img).result = .ok (some "No faces detected")) ∧
    (∀ img : ImageInput (List TextBoxes.TextBox), img.readable = true →
      img.detections = .ok [] →
      (TextBoxes.extract_image_text_boxes img).result = .ok (some "No text detected")) := by
  refine ⟨?_, ?_, ?_⟩
  · intro img h1 h2
    unfold BodyKeypoints.extract_image_keypoints
    simp [h1, h2]
  · intro img h1 h2
    unfold FaceKeypoints.extract_image_keypoints
    simp [h1, h2]
  · intro img h1 h2
    unfold TextBoxes.extract_image_text_boxes
    simp [h1, h2]

/-- C8 witness: concrete readable images with empty detector output for
each of the three detectors. -/
theorem image_zero_detections_sentinel_witness :
    (BodyKeypoints.extract_image_keypoints ⟨true, .ok []⟩).result
      = .ok (some "No pose detected") ∧
    (FaceKeypoints.extract_image_keypoints ⟨true, .ok []⟩).result
      = .ok (some "No faces detected") ∧
    (TextBoxes.extract_image_text_boxes ⟨true, .ok []⟩).result
      = .ok (some "No text detected") :=
  ⟨image_zero_detections_sentinel.1 ⟨true, .ok []⟩ rfl rfl,
   image_zero_detections_sentinel.2.1 ⟨true, .ok []⟩ rfl rfl,
   image_zero_detections_sentinel.2.2 ⟨true, .ok []⟩ rfl rfl⟩

/-- C9 counterexample: an opened 1 fps pose stream whose single frame makes
the detector raise. The detector has been acquired, the call exits with the
error, and `detector.close()` never runs — the source has no
`try`/`finally` — refuting release on every exit path. -/
theorem detector_not_closed_on_error_exit :
    (BodyKeypoints.extract_video_keypoints ⟨true, 1, [Except.error ()]⟩).acquired = true ∧
    (BodyKeypoints.extract_video_keypoints ⟨true, 1, [Except.error ()]⟩).result
      = Except.error () ∧
    (BodyKeypoints.extract_video_keypoints ⟨true, 1, [Except.error ()]⟩).closed = false :=
  ⟨rfl, rfl, rfl⟩

/-- C9 (amended): for the pose and face-mesh extraction calls (image and
full-video traversals), the detector resource acquired at the start of the
call is released before the call returns on every non-raising exit path:
the early returns happen before acquisition, and every normal completion
runs `detector.close()`. On an error exit the exception propagates without
release (no `finally` block), as the counterexample shows. -/
theorem detector_release_on_normal_exit :
    (∀ cap : VideoStream (List BodyKeypoints.PoseKp),
      (BodyKeypoints.extract_video_keypoints cap).result ≠ Except.error () →
      (BodyKeypoints.extract_video_keypoints cap).acquired = true →
      (BodyKeypoints.extract_video_keypoints cap).closed = true) ∧
    (∀ img : ImageInput (List BodyKeypoints.PoseKp),
      (BodyKeypoints.extract_image_keypoints img).result ≠ Except.error () →
      (BodyKeypoints.extract_image_keypoints img).acquired = true →
      (BodyKeypoints.extract_image_keypoints img).closed = true) ∧
    (∀ cap : VideoStream (List (List FaceKeypoints.FaceKp)),
      (FaceKeypoints.extract_video_keypoints cap).result ≠ Except.error () →
      (FaceKeypoints.extract_video_keypoints cap).acquired = true →
      (FaceKeypoints.extract_video_keypoints cap).closed = true) ∧
    (∀ img : ImageInput (List (List FaceKeypoints.FaceKp)),
      (FaceKeypoints.extract_image_keypoints img).result ≠ Except.error () →
      (FaceKeypoints.extract_image_keypoints img).acquired = true →
      (FaceKeypoints.extract_image_keypoints img).closed = true) := by
  refine ⟨?_, ?_, ?_, ?_⟩
  · intro cap hres hacq
    unfold BodyKeypoints.extract_video_keypoints at hres hacq ⊢
    by_cases h1 : cap.opened = false
    · simp [h1] at hacq
    by_cases h2 : cap.fps ≤ 0
    · simp [h1, h2] at hacq
    by_cases h3 : (pyInt cap.fps).toNat = 0
    · cases hf : cap.frames with
      | nil => simp [h1, h2, h3, hf]
      | cons a l => simp [h1, h2, h3, hf] at hres
    · cases h4 : (videoLoop BodyKeypoints.poseFrameLines (pyInt cap.fps).toNat
        cap.frames 0 0).err with
      | true => simp [h1, h2, h3, h4] at hres
      | false => simp [h1, h2, h3, h4]
  · intro img hres hacq
    unfold BodyKeypoints.extract_image_keypoints at hres hacq ⊢
    by_cases h1 : img.readable = false
    · simp [h1] at hacq
    · cases hd : img.detections with
      | error u => simp [h1, hd] at hres
      | ok l => by_cases h2 : l = [] <;> simp [h1, hd, h2]
  · intro cap hres hacq
    unfold FaceKeypoints.extract_video_keypoints at hres hacq ⊢
    by_cases h1 : cap.opened = false
    · simp [h1] at hacq
    by_cases h2 : cap.fps ≤ 0
    · simp [h1, h2] at hacq
    by_cases h3 : (pyInt cap.fps).toNat = 0
    · cases hf : cap.frames with
      | nil => simp [h1, h2, h3, hf]
      | cons a l => simp [h1, h2, h3, hf] at hres
    · cases h4 : (videoLoop FaceKeypoints.faceFrameLines (pyInt cap.fps).toNat
        cap.frames 0 0).err with
      | true => simp [h1, h2, h3, h4] at hres
      | false => simp [h1, h2, h3, h4]
  · intro img hres hacq
    unfold FaceKeypoints.extract_image_keypoints at hres hacq ⊢
    by_cases h1 : img.readable = false
    · simp [h1] at hacq
    · cases hd : img.detections with
      | error u => simp [h1, hd] at hres
      | ok l => by_cases h2 : l = [] <;> simp [h1, hd, h2]

/-- C9 witness: the amended theorem applied to an opened 1 fps pose stream
whose single frame analyzes successfully, and to a readable face image;
both complete normally and close their detector. -/
theorem detector_release_on_normal_exit_witness :
    (BodyKeypoints.extract_video_keypoints ⟨true, 1, [Except.ok []]⟩).closed = true ∧
    (FaceKeypoints.extract_image_keypoints ⟨true, .ok []⟩).closed = true :=
  ⟨detector_release_on_normal_exit.1 ⟨true, 1, [Except.ok []]⟩
      (fun h => by
        rw [show (BodyKeypoints.extract_video_keypoints ⟨true, 1, [Except.ok []]⟩).result
          = .ok (some "Second 0: No pose detected") from rfl] at h
        exact Except.noConfusion h) rfl,
   detector_release_on_normal_exit.2.2.2 ⟨true, .ok []⟩
      (fun h => by
        rw [show (FaceKeypoints.extract_image_keypoints ⟨true, .ok []⟩).result
          = .ok (some "No faces detected") from rfl] at h
        exact Except.noConfusion h) rfl⟩

/-- C10: for the pose, face-mesh and text-box analyzers, whenever
extraction yields no result — unknown file type, unreadable image,
unopenable stream, or `fps <= 0` — the save entry point returns `None`
with an empty filesystem event list: no directory creation and no write
(the default output directory is only created after a report string
exists). -/
theorem save_no_result_no_side_effects :
    (∀ (path : String) (img : ImageInput (List BodyKeypoints.PoseKp))
        (cap : VideoStream (List BodyKeypoints.PoseKp)) (odir : Option String),
      ((FileUtils.is_video_or_image path ≠ "image" ∧
          FileUtils.is_video_or_image path ≠ "video") ∨
        (FileUtils.is_video_or_image path = "image" ∧ img.readable = false) ∨
        (FileUtils.is_video_or_image path = "video" ∧
          (cap.opened = false ∨ cap.fps ≤ 0))) →
      BodyKeypoints.save_keypoints path img cap odir = (.ok none, [])) ∧
    (∀ (path : String) (img : ImageInput (List (List FaceKeypoints.FaceKp)))
        (cap : VideoStream (List (List FaceKeypoints.FaceKp))) (odir : Option String),
      ((FileUtils.is_video_or_image path ≠ "image" ∧
          FileUtils.is_video_or_image path ≠ "video") ∨
        (FileUtils.is_video_or_image path = "image" ∧ img.readable = false) ∨
        (FileUtils.is_video_or_image path = "video" ∧
          (cap.opened = false ∨ cap.fps ≤ 0))) →
      FaceKeypoints.save_keypoints path img cap odir = (.ok none, [])) ∧
    (∀ (path : String) (img : ImageInput (List TextBoxes.TextBox))
        (cap : VideoStream (List TextBoxes.TextBox)) (odir : Option String),
      ((FileUtils.is_video_or_image path ≠ "image" ∧
          FileUtils.is_video_or_image path ≠ "video") ∨
        (FileUtils.is_video_or_image path = "image" ∧ img.readable = false) ∨
        (FileUtils.is_video_or_image path = "video" ∧
          (cap.opened = false ∨ cap.fps ≤ 0))) →
      TextBoxes.save_text_boxes path img cap odir = (.ok none, [])) := by
  refine ⟨?_, ?_, ?_⟩
  · intro path img cap odir h
    unfold BodyKeypoints.save_keypoints
    rcases h with ⟨h1, h2⟩ | ⟨h1, h2⟩ | ⟨h1, h2⟩
    · simp [h1, h2]
    · simp [h1, h2, BodyKeypoints.extract_image_keypoints]
    · rcases h2 with h2 | h2
      · simp [h1, h2, BodyKeypoints.extract_video_keypoints]
      · by_cases hop : cap.opened = false <;>
          simp [h1, h2, hop, BodyKeypoints.extract_video_keypoints]
  · intro path img cap odir h
    unfold FaceKeypoints.save_keypoints
    rcases h with ⟨h1, h2⟩ | ⟨h1, h2⟩ | ⟨h1, h2⟩
    · simp [h1, h2]
    · simp [h1, h2, FaceKeypoints.extract_image_keypoints]
    · rcases h2 with h2 | h2
      · simp [h1, h2, FaceKeypoints.extract_video_keypoints]
      · by_cases hop : cap.opened = false <;>
          simp [h1, h2, hop, FaceKeypoints.extract_video_keypoints]
  · intro path img cap odir h
    unfold TextBoxes.save_text_boxes
    rcases h with ⟨h1, h2⟩ | ⟨h1, h2⟩ | ⟨h1, h2⟩
    · simp [h1, h2]
    · simp [h1, h2, TextBoxes.extract_image_text_boxes]
    · rcases h2 with h2 | h2
      · simp [h1, h2, TextBoxes.extract_video_text_boxes]
      · by_cases hop : cap.opened = false <;>
          simp [h1, h2, hop, TextBoxes.extract_video_text_boxes]

/-- C10 witness: an unknown-extension path for the pose saver, an
unreadable image for the face saver, and an unopenable `.mp4` stream for
the text saver; each returns `None` with no filesystem event. -/
theorem save_no_result_no_side_effects_witness :
    BodyKeypoints.save_keypoints "file.bin" ⟨true, .ok []⟩ ⟨true, 30, []⟩ none
      = (.ok none, []) ∧
    FaceKeypoints.save_keypoints "photo.png" ⟨false, .ok []⟩ ⟨true, 30, []⟩ none
      = (.ok none, []) ∧
    TextBoxes.save_text_boxes "clip.mp4" ⟨true, .ok []⟩ ⟨false, 30, []⟩ none
      = (.ok none, []) :=
  ⟨save_no_result_no_side_effects.1 "file.bin" ⟨true, .ok []⟩ ⟨true, 30, []⟩ none
      (Or.inl ⟨by decide, by decide⟩),
   save_no_result_no_side_effects.2.1 "photo.png" ⟨false, .ok []⟩ ⟨true, 30, []⟩ none
      (Or.inr (Or.inl ⟨by decide, rfl⟩)),
   save_no_result_no_side_effects.2.2 "clip.mp4" ⟨true, .ok []⟩ ⟨false, 30, []⟩ none
      (Or.inr (Or.inr ⟨by decide, Or.inl rfl⟩))⟩

set_option maxRecDepth 40000 in
/-- C4 evidence: at a concrete one-track separation result (an existing
`drums.wav` of 1048576 bytes), the manifest the source writes contains a
`DYNAMICS ANALYSIS` section between the track list and the footer, so it
differs from the claim's (and the spec's and the module's own tests')
header-body-footer layout with nothing between body and footer. -/
theorem manifest_has_dynamics_between_body_and_footer :
    "DYNAMICS ANALYSIS\n" ∈ SoundExtraction.manifestChunks "test_video.mp4"
      [⟨"drums", "drums.wav", true, 1048576, 0, 0, 0, 0⟩] ∧
    String.join (SoundExtraction.manifestChunks "test_video.mp4"
        [⟨"drums", "drums.wav", true, 1048576, 0, 0, 0, 0⟩]) ≠
      SoundExtraction.manifestPerClaimC4 "test_video.mp4"
        [⟨"drums", "drums.wav", true, 1048576, 0, 0, 0, 0⟩] := by
  constructor
  · decide
  · decide

/-- C5: the `Total tracks` footer of every manifest counts every entry of
the input mapping — also those whose artifact does not exist and is
omitted from the body — and an empty mapping yields no track line, no
dynamics block, and the footer `Total tracks: 0`; a single non-existing
track is likewise omitted from the body while the footer says
`Total tracks: 1`. -/
theorem manifest_total_tracks_counts_all_entries (video_name : String)
    (tracks : List SoundExtraction.Track) :
    (SoundExtraction.manifestChunks video_name tracks).getLast? =
      some ("Total tracks: " ++ Nat.repr tracks.length ++ "\n") ∧
    SoundExtraction.manifestChunks video_name [] =
      ["Audio Separation Results for: " ++ video_name ++ "\n",
       SoundExtraction.sep60 ++ "\n\n",
       "\n" ++ SoundExtraction.sep60 ++ "\n",
       "DYNAMICS ANALYSIS\n",
       SoundExtraction.sep60 ++ "\n\n",
       SoundExtraction.sep60 ++ "\n",
       "Total tracks: 0\n"] ∧
    SoundExtraction.manifestChunks video_name
        [⟨"bass", "bass.wav", false, 7, 0, 0, 0, 0⟩] =
      ["Audio Separation Results for: " ++ video_name ++ "\n",
       SoundExtraction.sep60 ++ "\n\n",
       "\n" ++ SoundExtraction.sep60 ++ "\n",
       "DYNAMICS ANALYSIS\n",
       SoundExtraction.sep60 ++ "\n\n",
       SoundExtraction.sep60 ++ "\n",
       "Total tracks: 1\n"] := by
  refine ⟨?_, rfl, rfl⟩
  unfold SoundExtraction.manifestChunks
  rw [show [SoundExtraction.sep60 ++ "\n", "Total tracks: " ++ Nat.repr tracks.length ++ "\n"]
      = [SoundExtraction.sep60 ++ "\n"] ++ ["Total tracks: " ++ Nat.repr tracks.length ++ "\n"]
    from rfl]
  simp only [← List.append_assoc, ← List.cons_append]
  rw [List.getLast?_concat]
